import Mathlib

/-!
Verification of the VoxTube backend routing/pipeline layer.

The route handlers are embedded from the Express router source
(`src/routes`, the only backend source present).  The service
collaborators (YouTube download, transcription, voice cloning, the
durable queue) live behind interfaces and are modelled as explicit
environment parameters; the two stores (shared cache, process-local
session store) are modelled from the spec's store contracts, since
their implementation files are not part of the provided source.
Each handler is a pure state-transition function over a `World`
(cache store + session store + job queue) that also emits a trace of
observable events (validation, collaborator calls, file lifecycle),
so that cache-hit, quota, cleanup and validation-ordering properties
can be stated as theorems about traces and final worlds.
-/

namespace VoxTube

/-- A transcript segment `{start, end, text}` as produced by the
transcription collaborator (times in seconds). -/
structure TranscriptSegment where
  start : Int
  stop : Int
  text : String
  deriving Repr, DecidableEq

/-- A cache entry `{voiceId?, speakerName?, voiceSamplePath?}`;
partial: every field optional. -/
structure CacheEntry where
  voiceId : Option String
  speakerName : Option String
  voiceSamplePath : Option String
  deriving Repr, DecidableEq

/-- The empty cache entry (all fields absent). -/
def CacheEntry.empty : CacheEntry :=
  { voiceId := none, speakerName := none, voiceSamplePath := none }

/-- Modelled from the spec: per-video session state held by the
process-local Session Store (spec §3 SessionState, enriched with the
`speakerName`/`voiceSamplePath` fields the routes read and write
through `memoryService`, whose implementation file is not in the
provided source). -/
structure SessionState where
  transcript : Option (List TranscriptSegment)
  voiceId : Option String
  agentId : Option String
  speakerName : Option String
  voiceSamplePath : Option String
  questionCount : Nat
  contextWindowCache : List (Int × String)
  deriving Repr, DecidableEq

/-- A fresh session record: `questionCount = 0`, nothing else known. -/
def SessionState.empty : SessionState :=
  { transcript := none, voiceId := none, agentId := none,
    speakerName := none, voiceSamplePath := none,
    questionCount := 0, contextWindowCache := [] }

/-- A job record enqueued by `POST /prepare-context`. -/
structure JobData where
  videoId : String
  videoUrl : String
  speakerName : String
  deriving Repr, DecidableEq

/-- Association-list store keyed by video identifier. -/
def findEntry {α : Type} (st : List (String × α)) (v : String) : Option α :=
  match st with
  | [] => none
  | (k, s) :: rest => if k = v then some s else findEntry rest v

/-- Update (or create) the record for key `v`, applying `f` to the
existing record or to `dflt` when absent.  This is the atomic
read-modify-write the store contracts require. -/
def updateEntry {α : Type} (st : List (String × α)) (v : String) (dflt : α)
    (f : α → α) : List (String × α) :=
  match st with
  | [] => [(v, f dflt)]
  | (k, s) :: rest =>
    if k = v then (k, f s) :: rest else (k, s) :: updateEntry rest v dflt f

theorem findEntry_updateEntry {α : Type} (st : List (String × α)) (v u : String)
    (dflt : α) (f : α → α) :
    findEntry (updateEntry st v dflt f) u =
      if u = v then some (f ((findEntry st v).getD dflt)) else findEntry st u := by
  induction st with
  | nil =>
    by_cases h : u = v
    · subst h
      simp [updateEntry, findEntry]
    · have h2 : ¬ v = u := fun hh => h hh.symm
      simp [updateEntry, findEntry, h, h2]
  | cons p rest ih =>
    obtain ⟨k, s⟩ := p
    by_cases hk : k = v
    · subst hk
      by_cases hu : u = k
      · subst hu
        simp [updateEntry, findEntry]
      · have h2 : ¬ k = u := fun hh => hu hh.symm
        simp [updateEntry, findEntry, hu, h2]
    · simp only [updateEntry, if_neg hk, findEntry]
      by_cases hu : k = u
      · subst hu
        have hv : ¬ k = v := hk
        simp [findEntry, hv]
      · have hu2 : ¬ u = k := fun hh => hu hh.symm
        simp [findEntry, hk, hu, hu2, ih]

/-- JS truthiness of an optional string: present and non-empty. -/
def optTruthy (o : Option String) : Bool :=
  match o with
  | none => false
  | some s => decide (s ≠ "")

/-- Fallback-or (the JS `a || b` on option values). -/
def orO (a b : Option String) : Option String :=
  match a with
  | some x => some x
  | none => b

-- ---------------------------------------------------------------
-- Cache Store (Modelled from the spec: §4.1 — the cache service
-- implementation file is not in the provided source).
-- `merge` updates only supplied fields, never clobbers others.
-- ---------------------------------------------------------------

/-- Per-field merge of a partial entry `p` over an existing entry
`e`: supplied fields of `p` win, absent fields keep `e`'s value. -/
def mergeEntry (p e : CacheEntry) : CacheEntry :=
  { voiceId := orO p.voiceId e.voiceId,
    speakerName := orO p.speakerName e.speakerName,
    voiceSamplePath := orO p.voiceSamplePath e.voiceSamplePath }

/-- Modelled from the spec: `CacheStore.merge` — a write updates only
the supplied (present) fields of the partial entry. -/
def cacheMerge (c : List (String × CacheEntry)) (v : String) (p : CacheEntry) :
    List (String × CacheEntry) :=
  updateEntry c v CacheEntry.empty (mergeEntry p)

/-- Modelled from the spec: `cacheService.getVideoData`. -/
def cacheGetVideoData (c : List (String × CacheEntry)) (v : String) :
    Option CacheEntry :=
  findEntry c v

/-- Modelled from the spec: `cacheService.getVoiceId`. -/
def cacheGetVoiceId (c : List (String × CacheEntry)) (v : String) :
    Option String :=
  (findEntry c v).bind (fun e => e.voiceId)

-- ---------------------------------------------------------------
-- Session Store (Modelled from the spec: §4.2 — the memory service
-- implementation file is not in the provided source).
-- ---------------------------------------------------------------

/-- Session store type. -/
abbrev SessionStore : Type := List (String × SessionState)

/-- Modelled from the spec: `memoryService.getVideoData`. -/
def sessGet (st : SessionStore) (v : String) : Option SessionState :=
  findEntry st v

/-- Modelled from the spec: `memoryService.getTranscript`. -/
def sessGetTranscript (st : SessionStore) (v : String) :
    Option (List TranscriptSegment) :=
  (sessGet st v).bind (fun s => s.transcript)

/-- Modelled from the spec: `memoryService.getVoiceId`. -/
def sessGetVoiceId (st : SessionStore) (v : String) : Option String :=
  (sessGet st v).bind (fun s => s.voiceId)

/-- Modelled from the spec: `memoryService.getAgentId`. -/
def sessGetAgentId (st : SessionStore) (v : String) : Option String :=
  (sessGet st v).bind (fun s => s.agentId)

/-- Modelled from the spec: `memoryService.getQuestionCount`
(`0` when no record exists yet). -/
def sessGetQuestionCount (st : SessionStore) (v : String) : Nat :=
  match sessGet st v with
  | none => 0
  | some s => s.questionCount

/-- Modelled from the spec: `memoryService.incrementQuestionCount`,
an atomic read-modify-write on the counter. -/
def sessIncrementQuestionCount (st : SessionStore) (v : String) : SessionStore :=
  updateEntry st v SessionState.empty fun s =>
    { s with questionCount := s.questionCount + 1 }

/-- Modelled from the spec: `memoryService.setAgentId`. -/
def sessSetAgentId (st : SessionStore) (v : String) (a : String) : SessionStore :=
  updateEntry st v SessionState.empty fun s => { s with agentId := some a }

/-- Modelled from the spec: `memoryService.setVoiceId`. -/
def sessSetVoiceId (st : SessionStore) (v : String) (a : String) : SessionStore :=
  updateEntry st v SessionState.empty fun s => { s with voiceId := some a }

/-- Modelled from the spec: `memoryService.setVideoData` merging the
supplied `{voiceId, speakerName}` fields into the record. -/
def sessSetVoiceData (st : SessionStore) (v : String)
    (voiceId speakerName : String) : SessionStore :=
  updateEntry st v SessionState.empty fun s =>
    { s with voiceId := some voiceId, speakerName := some speakerName }

/-- Modelled from the spec: `memoryService.setTranscript` (executed by
the durable worker when the prepare-context pipeline completes). -/
def sessSetTranscript (st : SessionStore) (v : String)
    (tr : List TranscriptSegment) : SessionStore :=
  updateEntry st v SessionState.empty fun s => { s with transcript := some tr }

/-- Modelled from the spec: `memoryService.getCachedContextWindow`
(exact match on the paused time). -/
def sessGetCachedContextWindow (st : SessionStore) (v : String) (t : Int) :
    Option String :=
  (sessGet st v).bind (fun s => lookupT s.contextWindowCache t)
where
  lookupT : List (Int × String) → Int → Option String
    | [], _ => none
    | (k, x) :: rest, t => if k = t then some x else lookupT rest t

/-- Modelled from the spec: `memoryService.cacheContextWindow`. -/
def sessCacheContextWindow (st : SessionStore) (v : String) (t : Int)
    (text : String) : SessionStore :=
  updateEntry st v SessionState.empty fun s =>
    { s with contextWindowCache := (t, text) :: s.contextWindowCache }

-- ---------------------------------------------------------------
-- Collaborator environment and observable events
-- ---------------------------------------------------------------

/-- Modelled from the spec: the external collaborators (YouTube
service, transcription service, ElevenLabs service, URL validity as
checked by the schema library) and the configuration constants; their
implementation files are not in the provided source, so they are
abstract parameters of every handler. -/
structure Env where
  isUrl : String → Bool
  extractVideoId : String → Option String
  downloadAudioSegment : String → Int → Except String String
  transcribeAudio : String → Except String (List TranscriptSegment)
  extractVoiceSample : String → Nat → Except String String
  cloneVoiceFn : String → String → Except String String
  createAgentFn : String → String → String → Except String String
  buildConversationConfig : String → String → String → String → String
  streamConversationFn : String → String → Except String String
  generateSpeech : String → String → Except String String
  maxQuestions : Nat
  maxContextWindowSeconds : Int

/-- The mutable state a request handler can touch: the shared cache,
the process-local session store, and the durable job queue. -/
structure World where
  cache : List (String × CacheEntry)
  session : SessionStore
  jobs : List JobData
  deriving Repr, DecidableEq

/-- Observable events emitted by a handler, in program order:
schema checks, collaborator invocations, queue submissions and the
lifecycle of transient local audio files. -/
inductive Ev where
  | validate
  | extractId
  | enqueue (videoId : String)
  | downloadCall
  | transcribeCall
  | extractSampleCall
  | cloneCall
  | agentCreateCall
  | buildConfigCall
  | streamCall
  | speakCall
  | fileCreate (path : String)
  | fileCleanup (path : String)
  deriving Repr, DecidableEq

/-- An HTTP response: a typed success body or an error status with
message. -/
inductive HttpResult (α : Type) where
  | ok (body : α)
  | err (status : Nat) (message : String)
  deriving Repr, DecidableEq

/-- HTTP status of a result (`200` for success). -/
def HttpResult.statusOf {α : Type} : HttpResult α → Nat
  | .ok _ => 200
  | .err s _ => s

/-- Handler output: response, final world, event trace. -/
structure Out (α : Type) where
  res : HttpResult α
  world : World
  trace : List Ev

/-- Number of external voice-clone collaborator calls in a trace. -/
def cloneCalls (t : List Ev) : Nat :=
  (t.filter fun e => e = Ev.cloneCall).length

/-- Number of external agent-creation collaborator calls in a trace. -/
def agentCreateCalls (t : List Ev) : Nat :=
  (t.filter fun e => e = Ev.agentCreateCall).length

/-- Paths of transient files created during a handler run. -/
def createdFiles (t : List Ev) : List String :=
  t.filterMap fun e =>
    match e with
    | .fileCreate p => some p
    | _ => none

/-- Paths of transient files removed during a handler run. -/
def cleanedFiles (t : List Ev) : List String :=
  t.filterMap fun e =>
    match e with
    | .fileCleanup p => some p
    | _ => none

/-- Files created by the handler and never cleaned up on its exit
path. -/
def leakedFiles (t : List Ev) : List String :=
  (createdFiles t).filter fun p => decide (p ∉ cleanedFiles t)

-- ---------------------------------------------------------------
-- Request bodies, schemas and responses
-- ---------------------------------------------------------------

/-- Body of `POST /prepare-context` (`speakerName` optional). -/
structure PrepareBody where
  videoUrl : String
  speakerName : Option String
  deriving Repr, DecidableEq

/-- Body of `POST /instant-context`. -/
structure InstantBody where
  videoUrl : String
  pausedTime : Int
  speakerName : String
  deriving Repr, DecidableEq

/-- Body of `POST /clone-voice`. -/
structure CloneBody where
  videoId : String
  speakerName : String
  sampleUrl : String
  deriving Repr, DecidableEq

/-- Body of `POST /get-context-window`. -/
structure GcwBody where
  videoId : String
  pausedTime : Int
  deriving Repr, DecidableEq

/-- Body of `POST /build-conversation`. -/
structure BuildBody where
  videoId : String
  voiceId : String
  speakerName : String
  contextWindow : String
  userQuestionText : String
  deriving Repr, DecidableEq

/-- Body of `POST /create-agent`. -/
structure CreateAgentBody where
  videoId : String
  speakerName : String
  deriving Repr, DecidableEq

/-- Body of `POST /stream-conversation`. -/
structure StreamBody where
  videoId : String
  text : String
  deriving Repr, DecidableEq

/-- Body of `POST /speak`. -/
structure SpeakBody where
  voiceId : String
  text : String
  deriving Repr, DecidableEq

/-- The declared (but, in the router, unused) `prepareContextSchema`:
`videoUrl` must be a URL string. -/
def prepareContextSchema (env : Env) (b : PrepareBody) : Bool :=
  env.isUrl b.videoUrl

/-- `cloneVoiceSchema`: non-empty `videoId` and `speakerName`, URL
`sampleUrl`. -/
def cloneVoiceSchema (env : Env) (b : CloneBody) : Bool :=
  decide (1 ≤ b.videoId.length) && decide (1 ≤ b.speakerName.length)
    && env.isUrl b.sampleUrl

/-- `getContextWindowSchema`: non-empty `videoId`, non-negative
`pausedTime`. -/
def getContextWindowSchema (b : GcwBody) : Bool :=
  decide (1 ≤ b.videoId.length) && decide (0 ≤ b.pausedTime)

/-- `buildConversationSchema`: all five fields non-empty. -/
def buildConversationSchema (b : BuildBody) : Bool :=
  decide (1 ≤ b.videoId.length) && decide (1 ≤ b.voiceId.length)
    && decide (1 ≤ b.speakerName.length) && decide (1 ≤ b.contextWindow.length)
    && decide (1 ≤ b.userQuestionText.length)

/-- `streamConversationSchema`: non-empty `videoId` and `text`. -/
def streamConversationSchema (b : StreamBody) : Bool :=
  decide (1 ≤ b.videoId.length) && decide (1 ≤ b.text.length)

/-- `speakSchema`: non-empty `voiceId` and `text`. -/
def speakSchema (b : SpeakBody) : Bool :=
  decide (1 ≤ b.voiceId.length) && decide (1 ≤ b.text.length)

/-- Response of `POST /prepare-context`. -/
structure PrepareResp where
  message : String
  jobId : Nat
  deriving Repr, DecidableEq

/-- Response of `POST /instant-context`. -/
structure InstantResp where
  videoId : String
  voiceId : String
  contextWindow : String
  deriving Repr, DecidableEq

/-- Response of `POST /clone-voice`. -/
structure CloneResp where
  videoId : String
  voiceId : String
  message : String
  deriving Repr, DecidableEq

/-- Response of `POST /get-context-window`. -/
structure GcwResp where
  contextWindow : String
  deriving Repr, DecidableEq

/-- Response of `POST /build-conversation`. -/
structure BuildResp where
  conversation : String
  deriving Repr, DecidableEq

/-- Response of `POST /create-agent`. -/
structure AgentResp where
  agent_id : String
  deriving Repr, DecidableEq

/-- Response of `POST /stream-conversation`. -/
structure StreamResp where
  response : String
  deriving Repr, DecidableEq

/-- Response of `POST /speak` (the audio buffer). -/
structure SpeakResp where
  audioBytes : String
  deriving Repr, DecidableEq

-- ---------------------------------------------------------------
-- The transcription service's context-window extraction
-- ---------------------------------------------------------------

/-- Space-join of segment texts (the handlers join with a space). -/
def joinSpace (ts : List String) : String :=
  String.intercalate " " ts

/-- Modelled from the spec: `buildContextWindow` of the transcription
service (its implementation file is not in the provided source):
selects the segments whose time ranges fall within
`[pausedTime - maxWindow, pausedTime]`, concatenating their texts in
order; when `pausedTime` precedes all segments, returns the earliest
segments up to the window bound; on an empty transcript, the empty
string. -/
def getContextWindow (segments : List TranscriptSegment)
    (pausedTime maxWindow : Int) : String :=
  match segments with
  | [] => ""
  | first :: _ =>
    if pausedTime < first.start then
      joinSpace ((segments.filter fun s =>
        decide (s.stop ≤ first.start + maxWindow)).map fun s => s.text)
    else
      joinSpace ((segments.filter fun s =>
        decide (pausedTime - maxWindow ≤ s.start) &&
          decide (s.stop ≤ pausedTime)).map fun s => s.text)

/-- Placeholder segment used for the (provably in-bounds) middle
index lookup. -/
def dfltSegment : TranscriptSegment := { start := 0, stop := 0, text := "" }

/-- The router helper `getContextWindowForVideo`: no transcript →
`undefined`; empty transcript → empty string; otherwise the window
around the start of the middle segment, bounded by
`MAX_CONTEXT_WINDOW_SECONDS`. -/
def getContextWindowForVideo (env : Env) (st : SessionStore)
    (videoId : String) : Option String :=
  match sessGetTranscript st videoId with
  | none => none
  | some segments =>
    if segments.length = 0 then some ""
    else
      some (getContextWindow segments
        ((segments.getD (segments.length / 2) dfltSegment).start)
        env.maxContextWindowSeconds)

-- ---------------------------------------------------------------
-- Route handlers (embedded from the router source)
-- ---------------------------------------------------------------

/-- `POST /prepare-context`: no schema check; extracts the video id
from the raw body and enqueues a background job. -/
def prepareContext (env : Env) (b : PrepareBody) (w : World) : Out PrepareResp :=
  match env.extractVideoId b.videoUrl with
  | none => ⟨.err 400 "Invalid YouTube URL", w, [.extractId]⟩
  | some videoId =>
    let speaker :=
      match b.speakerName with
      | some s => if s = "" then "Speaker for " ++ videoId else s
      | none => "Speaker for " ++ videoId
    ⟨.ok ⟨"Video processing has started in the background.", w.jobs.length⟩,
      { w with jobs := w.jobs ++ [⟨videoId, b.videoUrl, speaker⟩] },
      [.extractId, .enqueue videoId]⟩

/-- `POST /instant-context`: cache check, segment download,
transcription, conditional clone-and-merge, inline cleanup calls on
the success path only. -/
def instantContext (env : Env) (b : InstantBody) (w : World) : Out InstantResp :=
  match env.extractVideoId b.videoUrl with
  | none => ⟨.err 400 "Invalid YouTube URL", w, [.extractId]⟩
  | some videoId =>
    let voiceId0 := cacheGetVoiceId w.cache videoId
    match env.downloadAudioSegment b.videoUrl b.pausedTime with
    | .error _ =>
      ⟨.err 500 "Failed to get instant context", w, [.extractId, .downloadCall]⟩
    | .ok audioPath =>
      match env.transcribeAudio audioPath with
      | .error _ =>
        ⟨.err 500 "Failed to get instant context", w,
          [.extractId, .downloadCall, .fileCreate audioPath, .transcribeCall]⟩
      | .ok segs =>
        let contextWindow := joinSpace (segs.map fun s => s.text)
        if optTruthy voiceId0 then
          ⟨.ok ⟨videoId, voiceId0.getD "", contextWindow⟩, w,
            [.extractId, .downloadCall, .fileCreate audioPath, .transcribeCall,
             .fileCleanup audioPath]⟩
        else
          match env.extractVoiceSample audioPath 30 with
          | .error _ =>
            ⟨.err 500 "Failed to get instant context", w,
              [.extractId, .downloadCall, .fileCreate audioPath, .transcribeCall,
               .extractSampleCall]⟩
          | .ok samplePath =>
            match env.cloneVoiceFn b.speakerName samplePath with
            | .error _ =>
              ⟨.err 500 "Failed to get instant context", w,
                [.extractId, .downloadCall, .fileCreate audioPath, .transcribeCall,
                 .extractSampleCall, .fileCreate samplePath, .cloneCall]⟩
            | .ok newVoiceId =>
              ⟨.ok ⟨videoId, newVoiceId, contextWindow⟩,
                { w with cache := (cacheMerge w.cache videoId
                    { voiceId := some newVoiceId, speakerName := none,
                      voiceSamplePath := none }) },
                [.extractId, .downloadCall, .fileCreate audioPath, .transcribeCall,
                 .extractSampleCall, .fileCreate samplePath, .cloneCall,
                 .fileCleanup samplePath, .fileCleanup audioPath]⟩

/-- `POST /clone-voice`: schema check, cache-hit short-circuit, clone
from the session's local voice sample, merge back into the cache and
the session store. -/
def cloneVoiceH (env : Env) (b : CloneBody) (w : World) : Out CloneResp :=
  if cloneVoiceSchema env b then
    let cachedData := cacheGetVideoData w.cache b.videoId
    let cachedVoice := cachedData.bind fun e => e.voiceId
    if optTruthy cachedVoice then
      ⟨.ok ⟨b.videoId, cachedVoice.getD "",
          "Voice already cloned for this video (from cache)."⟩, w, [.validate]⟩
    else
      let localVoiceSamplePath := (sessGet w.session b.videoId).bind
        fun s => s.voiceSamplePath
      if optTruthy localVoiceSamplePath then
        match env.cloneVoiceFn b.speakerName (localVoiceSamplePath.getD "") with
        | .error _ =>
          ⟨.err 500 "Failed to clone voice", w, [.validate, .cloneCall]⟩
        | .ok newVoiceId =>
          let dataToCache : CacheEntry :=
            { voiceId := some newVoiceId, speakerName := some b.speakerName,
              voiceSamplePath := (cachedData.getD CacheEntry.empty).voiceSamplePath }
          let cache2 := cacheMerge w.cache b.videoId dataToCache
          let sess2 := sessSetVoiceData
            (sessSetVoiceId w.session b.videoId newVoiceId)
            b.videoId newVoiceId b.speakerName
          ⟨.ok ⟨b.videoId, newVoiceId, "Voice cloned successfully."⟩,
            { w with cache := cache2, session := sess2 },
            [.validate, .cloneCall]⟩
      else
        ⟨.err 404 ("Local voice sample path not found for video " ++ b.videoId
            ++ ". Please prepare context again."), w, [.validate]⟩
  else
    ⟨.err 400 "Invalid request data", w, [.validate]⟩

/-- `POST /get-context-window`: schema check, exact-match window
cache, 404 when no transcript is known, else extract and cache the
window. -/
def getContextWindowH (env : Env) (b : GcwBody) (w : World) : Out GcwResp :=
  if getContextWindowSchema b then
    let cached := sessGetCachedContextWindow w.session b.videoId b.pausedTime
    if optTruthy cached then
      ⟨.ok ⟨cached.getD ""⟩, w, [.validate]⟩
    else
      match sessGetTranscript w.session b.videoId with
      | none => ⟨.err 404 "Video transcript not found", w, [.validate]⟩
      | some transcript =>
        let contextWindow :=
          getContextWindow transcript b.pausedTime env.maxContextWindowSeconds
        ⟨.ok ⟨contextWindow⟩,
          { w with session := (sessCacheContextWindow w.session b.videoId
              b.pausedTime contextWindow) },
          [.validate]⟩
  else
    ⟨.err 400 "Invalid request data", w, [.validate]⟩

/-- `POST /build-conversation`: schema check, quota check then
increment, then the (pure) conversation-config collaborator. -/
def buildConversation (env : Env) (b : BuildBody) (w : World) : Out BuildResp :=
  if buildConversationSchema b then
    let questionCount := sessGetQuestionCount w.session b.videoId
    if env.maxQuestions ≤ questionCount then
      ⟨.err 429 ("Maximum questions per video exceeded ("
          ++ toString env.maxQuestions ++ ")"), w, [.validate]⟩
    else
      ⟨.ok ⟨env.buildConversationConfig b.voiceId b.speakerName b.contextWindow
          b.userQuestionText⟩,
        { w with session := sessIncrementQuestionCount w.session b.videoId },
        [.validate, .buildConfigCall]⟩
  else
    ⟨.err 400 "Invalid request data", w, [.validate]⟩

/-- `POST /create-agent`: presence checks on the raw body, session
prerequisites, memoized agent short-circuit, else create and store a
new agent. -/
def createAgentH (env : Env) (b : CreateAgentBody) (w : World) : Out AgentResp :=
  if b.videoId = "" ∨ b.speakerName = "" then
    ⟨.err 400 "Missing required parameters", w, []⟩
  else
    match sessGet w.session b.videoId with
    | none =>
      ⟨.err 400 "Video data not found. Please prepare context first.", w, []⟩
    | some videoData =>
      match videoData.transcript with
      | none =>
        ⟨.err 400 "Transcript is missing or empty. Please prepare context first.",
          w, []⟩
      | some tr =>
        if tr.length = 0 then
          ⟨.err 400 "Transcript is missing or empty. Please prepare context first.",
            w, []⟩
        else
          let existingAgentId := sessGetAgentId w.session b.videoId
          if optTruthy existingAgentId then
            ⟨.ok ⟨existingAgentId.getD ""⟩, w, []⟩
          else
            let voiceId := sessGetVoiceId w.session b.videoId
            if optTruthy voiceId then
              match getContextWindowForVideo env w.session b.videoId with
              | none =>
                ⟨.err 404 "Context window not found. Please prepare context first.",
                  w, []⟩
              | some cw =>
                if cw = "" then
                  ⟨.err 404 "Context window not found. Please prepare context first.",
                    w, []⟩
                else
                  match env.createAgentFn b.speakerName (voiceId.getD "") cw with
                  | .error _ =>
                    ⟨.err 500 "Failed to create agent", w, [.agentCreateCall]⟩
                  | .ok agentId =>
                    ⟨.ok ⟨agentId⟩,
                      { w with session := sessSetAgentId w.session b.videoId agentId },
                      [.agentCreateCall]⟩
            else
              ⟨.err 404 "Voice not found. Please clone voice first.", w, []⟩

/-- `POST /stream-conversation`: schema check, quota check then
increment, and only then the agent-existence check and the streaming
collaborator call. -/
def streamConversation (env : Env) (b : StreamBody) (w : World) : Out StreamResp :=
  if streamConversationSchema b then
    let questionCount := sessGetQuestionCount w.session b.videoId
    if env.maxQuestions ≤ questionCount then
      ⟨.err 429 ("Maximum questions per video exceeded ("
          ++ toString env.maxQuestions ++ ")"), w, [.validate]⟩
    else
      let sess2 := sessIncrementQuestionCount w.session b.videoId
      let agentId := sessGetAgentId sess2 b.videoId
      if optTruthy agentId then
        match env.streamConversationFn (agentId.getD "") b.text with
        | .error _ =>
          ⟨.err 500 "Failed to stream conversation",
            { w with session := sess2 }, [.validate, .streamCall]⟩
        | .ok r =>
          ⟨.ok ⟨r⟩, { w with session := sess2 }, [.validate, .streamCall]⟩
      else
        ⟨.err 404 "Agent not found. Please create agent first.",
          { w with session := sess2 }, [.validate]⟩
  else
    ⟨.err 400 "Invalid request data", w, [.validate]⟩

/-- `POST /speak`: schema check then the speech-synthesis
collaborator. -/
def speakH (env : Env) (b : SpeakBody) (w : World) : Out SpeakResp :=
  if speakSchema b then
    match env.generateSpeech b.voiceId b.text with
    | .error _ => ⟨.err 500 "Failed to generate speech", w, [.validate, .speakCall]⟩
    | .ok buf => ⟨.ok ⟨buf⟩, w, [.validate, .speakCall]⟩
  else
    ⟨.err 400 "Invalid request data", w, [.validate]⟩

-- ---------------------------------------------------------------
-- Store lemmas
-- ---------------------------------------------------------------

theorem findEntry_cacheMerge (c : List (String × CacheEntry)) (v u : String)
    (p : CacheEntry) :
    findEntry (cacheMerge c v p) u =
      if u = v then some (mergeEntry p ((findEntry c v).getD CacheEntry.empty))
      else findEntry c u :=
  findEntry_updateEntry c v u CacheEntry.empty (mergeEntry p)

theorem cacheMerge_speakerName (c : List (String × CacheEntry)) (v u : String)
    (p : CacheEntry) (h : p.speakerName = none) :
    ((findEntry (cacheMerge c v p) u).bind fun e => e.speakerName) =
      ((findEntry c u).bind fun e => e.speakerName) := by
  rw [findEntry_cacheMerge]
  by_cases huv : u = v
  · subst huv
    cases hfe : findEntry c u with
    | none => simp [hfe, mergeEntry, h, orO, CacheEntry.empty]
    | some e => simp [hfe, mergeEntry, h, orO]
  · simp [huv]

theorem cacheMerge_voiceSamplePath_none (c : List (String × CacheEntry))
    (v u : String) (p : CacheEntry) (h : p.voiceSamplePath = none) :
    ((findEntry (cacheMerge c v p) u).bind fun e => e.voiceSamplePath) =
      ((findEntry c u).bind fun e => e.voiceSamplePath) := by
  rw [findEntry_cacheMerge]
  by_cases huv : u = v
  · subst huv
    cases hfe : findEntry c u with
    | none => simp [hfe, mergeEntry, h, orO, CacheEntry.empty]
    | some e => simp [hfe, mergeEntry, h, orO]
  · simp [huv]

theorem cacheMerge_voiceSamplePath_stale (c : List (String × CacheEntry))
    (v u : String) (p : CacheEntry)
    (h : p.voiceSamplePath = ((findEntry c v).bind fun e => e.voiceSamplePath)) :
    ((findEntry (cacheMerge c v p) u).bind fun e => e.voiceSamplePath) =
      ((findEntry c u).bind fun e => e.voiceSamplePath) := by
  rw [findEntry_cacheMerge]
  by_cases huv : u = v
  · subst huv
    cases hfe : findEntry c u with
    | none => rw [hfe] at h; simp [hfe, mergeEntry, h, orO, CacheEntry.empty]
    | some e =>
      rw [hfe] at h
      cases he : e.voiceSamplePath with
      | none => simp [hfe, mergeEntry, h, he, orO]
      | some s => simp [hfe, mergeEntry, h, he, orO]
  · simp [huv]

theorem sessGet_increment (st : SessionStore) (v u : String) :
    sessGet (sessIncrementQuestionCount st v) u =
      if u = v then
        some { (sessGet st v).getD SessionState.empty with
                 questionCount := ((sessGet st v).getD SessionState.empty).questionCount + 1 }
      else sessGet st u :=
  findEntry_updateEntry st v u SessionState.empty _

theorem sessCount_increment_self (st : SessionStore) (v : String) :
    sessGetQuestionCount (sessIncrementQuestionCount st v) v =
      sessGetQuestionCount st v + 1 := by
  simp only [sessGetQuestionCount, sessGet_increment, if_pos rfl]
  cases hs : sessGet st v <;> simp [hs, SessionState.empty]

theorem sessAgentId_increment (st : SessionStore) (v u : String) :
    sessGetAgentId (sessIncrementQuestionCount st v) u = sessGetAgentId st u := by
  simp only [sessGetAgentId, sessGet_increment]
  by_cases h : u = v
  · subst h
    cases hs : sessGet st u <;> simp [hs, SessionState.empty]
  · simp [h]

theorem sessAgentId_setAgentId (st : SessionStore) (v : String) (a : String) :
    sessGetAgentId (sessSetAgentId st v a) v = some a := by
  simp [sessGetAgentId, sessGet, sessSetAgentId, findEntry_updateEntry]

theorem sessGet_setTranscript_fresh (st : SessionStore) (v : String)
    (tr : List TranscriptSegment) (h : sessGet st v = none) :
    sessGet (sessSetTranscript st v tr) v =
      some { SessionState.empty with transcript := some tr } := by
  simp [sessGet, sessSetTranscript, findEntry_updateEntry] at h ⊢
  simp [h]

-- ---------------------------------------------------------------
-- A concrete environment and worlds for witnesses
-- ---------------------------------------------------------------

/-- A concrete collaborator environment used by the witnesses: a URL
check, a fixed recognized video URL, deterministic collaborator
results, `MAX_QUESTIONS_PER_VIDEO = 2`,
`MAX_CONTEXT_WINDOW_SECONDS = 60`. -/
def envT : Env :=
  { isUrl := fun s =>
      match s.data with
      | 'h' :: 't' :: 't' :: 'p' :: _ => true
      | _ => false,
    extractVideoId := fun u => if u = "https://youtu.be/vid1" then some "vid1" else none,
    downloadAudioSegment := fun _ _ => .ok "/tmp/seg.mp3",
    transcribeAudio := fun _ => .ok [⟨0, 5, "hello"⟩, ⟨5, 9, "world"⟩],
    extractVoiceSample := fun p _ => .ok (p ++ ".sample"),
    cloneVoiceFn := fun _ _ => .ok "voice-9",
    createAgentFn := fun _ _ _ => .ok "agent-7",
    buildConversationConfig := fun a b c d => a ++ "|" ++ b ++ "|" ++ c ++ "|" ++ d,
    streamConversationFn := fun a t => .ok (a ++ ":" ++ t),
    generateSpeech := fun _ t => .ok t,
    maxQuestions := 2,
    maxContextWindowSeconds := 60 }

/-- The empty world: nothing cached, no sessions, no jobs. -/
def emptyWorld : World := { cache := [], session := [], jobs := [] }

/-- A world whose cache already holds a cloned voice for `vid1`. -/
def cachedWorld : World :=
  { cache := [("vid1", { voiceId := some "voice-1", speakerName := some "Alice",
                          voiceSamplePath := some "/tmp/s1.mp3" })],
    session := [], jobs := [] }

/-- A world whose cache entry for `vid1` has `speakerName` and
`voiceSamplePath` but no `voiceId` yet, and whose session holds a
local voice sample path, so both cloning writes actually happen. -/
def freshVoiceWorld : World :=
  { cache := [("vid1", { voiceId := none, speakerName := some "Alice",
                          voiceSamplePath := some "/tmp/s1.mp3" })],
    session := [("vid1", { SessionState.empty with voiceSamplePath := some "/tmp/s1.mp3" })],
    jobs := [] }

/-- A world whose session for `vid1` has a two-segment transcript and
a voice but no agent yet: ready for `/create-agent`. -/
def agentReadyWorld : World :=
  { cache := [], jobs := [],
    session := [("vid1",
      { SessionState.empty with
          transcript := some [⟨0, 5, "hello"⟩, ⟨5, 9, "world"⟩],
          voiceId := some "voice-1" })] }

/-- A session record that already memoizes an agent id. -/
def memoAgentState : SessionState :=
  { SessionState.empty with
      transcript := some [⟨0, 5, "hello"⟩],
      agentId := some "agent-7" }

/-- A world whose session for `vid1` already memoizes an agent id. -/
def memoAgentWorld : World :=
  { cache := [], jobs := [], session := [("vid1", memoAgentState)] }

/-- The environment of `envT` with a failing transcription
collaborator. -/
def envFailTranscribe : Env :=
  { envT with transcribeAudio := fun _ => .error "transcription failed" }

-- ---------------------------------------------------------------
-- C7: context window on an empty transcript
-- ---------------------------------------------------------------

/-- C7: for every paused time and window bound, `buildContextWindow`
(the transcription service's `getContextWindow`) applied to an empty
transcript returns the empty string (total function, no failure), and
the router helper `getContextWindowForVideo` likewise returns the
empty string for a video whose stored transcript is empty. -/
theorem buildContextWindow_empty_transcript :
    (∀ pausedTime maxWindow : Int, getContextWindow [] pausedTime maxWindow = "") ∧
    (∀ (env : Env) (st : SessionStore) (v : String),
      sessGetTranscript st v = some [] →
      getContextWindowForVideo env st v = some "") := by
  constructor
  · intro p m
    rfl
  · intro env st v h
    simp [getContextWindowForVideo, h]

/-- Witness for C7 at a concrete paused time, bound and store. -/
theorem buildContextWindow_empty_transcript_witness :
    getContextWindow [] 42 60 = "" ∧
    getContextWindowForVideo envT
      [("vid1", { SessionState.empty with transcript := some [] })] "vid1" = some "" := by
  exact ⟨buildContextWindow_empty_transcript.1 42 60,
    buildContextWindow_empty_transcript.2 envT _ "vid1" (by decide)⟩

-- ---------------------------------------------------------------
-- C3: /stream-conversation without an agent
-- ---------------------------------------------------------------

/-- C3 (divergence): on a video with no `agentId` and a fresh (zero)
question counter, `POST /stream-conversation` does return the 404
agent-not-found error, but the question counter is incremented to 1
before the agent check — the claim says the counter is unchanged and
incremented only on accepted turns. -/
theorem stream_conversation_no_agent_counts_question :
    (streamConversation envT ⟨"vid1", "hi"⟩ emptyWorld).res =
      .err 404 "Agent not found. Please create agent first." ∧
    sessGetQuestionCount emptyWorld.session "vid1" = 0 ∧
    sessGetQuestionCount
      ((streamConversation envT ⟨"vid1", "hi"⟩ emptyWorld).world).session "vid1" = 1 := by
  decide

-- ---------------------------------------------------------------
-- C4: transient-file cleanup in /instant-context
-- ---------------------------------------------------------------

/-- C4 (divergence): when the transcription collaborator fails after
the segment download succeeded, `POST /instant-context` returns the
500 error without removing the downloaded segment file — the claim
says every transient file is cleaned up on every exit path. -/
theorem instant_context_leaks_download_on_failure :
    (instantContext envFailTranscribe ⟨"https://youtu.be/vid1", 10, "Alice"⟩ emptyWorld).res =
      .err 500 "Failed to get instant context" ∧
    createdFiles (instantContext envFailTranscribe
      ⟨"https://youtu.be/vid1", 10, "Alice"⟩ emptyWorld).trace = ["/tmp/seg.mp3"] ∧
    leakedFiles (instantContext envFailTranscribe
      ⟨"https://youtu.be/vid1", 10, "Alice"⟩ emptyWorld).trace = ["/tmp/seg.mp3"] := by
  decide

-- ---------------------------------------------------------------
-- C5: cache writes are per-field merges
-- ---------------------------------------------------------------

/-- Speaker-name field of the cache entry for `u`, flattened over
entry absence. -/
def cacheSpeakerName (w : World) (u : String) : Option String :=
  (findEntry w.cache u).bind fun e => e.speakerName

/-- Voice-sample-path field of the cache entry for `u`, flattened
over entry absence. -/
def cacheVoiceSamplePathOf (w : World) (u : String) : Option String :=
  (findEntry w.cache u).bind fun e => e.voiceSamplePath

/-- Every cache state reachable from `/instant-context` is the input
cache or a merge supplying only `voiceId`. -/
theorem instantContext_cache_shape (env : Env) (b : InstantBody) (w : World) :
    (instantContext env b w).world.cache = w.cache ∨
    ∃ vid nv, (instantContext env b w).world.cache =
      cacheMerge w.cache vid
        { voiceId := some nv, speakerName := none, voiceSamplePath := none } := by
  unfold instantContext
  dsimp only
  split
  · exact Or.inl rfl
  · split
    · exact Or.inl rfl
    · split
      · exact Or.inl rfl
      · split
        · exact Or.inl rfl
        · split
          · exact Or.inl rfl
          · split
            · exact Or.inl rfl
            · exact Or.inr ⟨_, _, rfl⟩

/-- Every cache state reachable from `/clone-voice` is the input
cache or a merge supplying `voiceId`, `speakerName` and the
already-cached `voiceSamplePath`. -/
theorem cloneVoiceH_cache_shape (env : Env) (b : CloneBody) (w : World) :
    (cloneVoiceH env b w).world.cache = w.cache ∨
    ∃ nv, (cloneVoiceH env b w).world.cache =
      cacheMerge w.cache b.videoId
        { voiceId := some nv, speakerName := some b.speakerName,
          voiceSamplePath :=
            ((cacheGetVideoData w.cache b.videoId).getD CacheEntry.empty).voiceSamplePath } := by
  unfold cloneVoiceH
  dsimp only
  split
  · split
    · exact Or.inl rfl
    · split
      · split
        · exact Or.inl rfl
        · exact Or.inr ⟨_, rfl⟩
      · exact Or.inl rfl
  · exact Or.inl rfl

/-- C5: the cache writes performed by the pipeline are per-field
merges: the `/instant-context` write (supplying only `voiceId`)
preserves `speakerName` and `voiceSamplePath` of every entry, and the
`/clone-voice` write preserves `voiceSamplePath` of every entry and
leaves entries of every other video untouched. -/
theorem cache_writes_preserve_unrelated_fields (env : Env) (w : World) :
    (∀ (b : InstantBody) (u : String),
      cacheSpeakerName ((instantContext env b w).world) u = cacheSpeakerName w u ∧
      cacheVoiceSamplePathOf ((instantContext env b w).world) u =
        cacheVoiceSamplePathOf w u) ∧
    (∀ (b : CloneBody) (u : String),
      cacheVoiceSamplePathOf ((cloneVoiceH env b w).world) u =
        cacheVoiceSamplePathOf w u ∧
      (u ≠ b.videoId →
        findEntry ((cloneVoiceH env b w).world).cache u = findEntry w.cache u)) := by
  constructor
  · intro b u
    rcases instantContext_cache_shape env b w with h | ⟨vid, nv, h⟩
    · simp [cacheSpeakerName, cacheVoiceSamplePathOf, h]
    · constructor
      · simp only [cacheSpeakerName, h]
        exact cacheMerge_speakerName w.cache vid u _ rfl
      · simp only [cacheVoiceSamplePathOf, h]
        exact cacheMerge_voiceSamplePath_none w.cache vid u _ rfl
  · intro b u
    rcases cloneVoiceH_cache_shape env b w with h | ⟨nv, h⟩
    · simp [cacheVoiceSamplePathOf, h]
    · constructor
      · simp only [cacheVoiceSamplePathOf, h]
        refine cacheMerge_voiceSamplePath_stale w.cache b.videoId u _ ?_
        simp only [cacheGetVideoData]
        cases hfe : findEntry w.cache b.videoId with
        | none => simp [hfe, CacheEntry.empty]
        | some e => simp [hfe]
      · intro hne
        simp only [h, findEntry_cacheMerge, if_neg hne]

/-- Witness for C5: applying the merge-preservation theorem at a
concrete world with a populated cache entry. -/
theorem cache_writes_preserve_unrelated_fields_witness :
    cacheSpeakerName
      ((instantContext envT ⟨"https://youtu.be/vid1", 10, "Zed"⟩ freshVoiceWorld).world)
      "vid1" = some "Alice" ∧
    cacheVoiceSamplePathOf
      ((cloneVoiceH envT ⟨"vid1", "Zed", "https://x.com/s.mp3"⟩ freshVoiceWorld).world)
      "vid1" = some "/tmp/s1.mp3" ∧
    findEntry
      ((cloneVoiceH envT ⟨"vid1", "Zed", "https://x.com/s.mp3"⟩ freshVoiceWorld).world).cache
      "other" = findEntry freshVoiceWorld.cache "other" := by
  have h := cache_writes_preserve_unrelated_fields envT freshVoiceWorld
  refine ⟨?_, ?_, ?_⟩
  · have h1 := (h.1 ⟨"https://youtu.be/vid1", 10, "Zed"⟩ "vid1").1
    rw [h1]
    decide
  · have h2 := (h.2 ⟨"vid1", "Zed", "https://x.com/s.mp3"⟩ "vid1").1
    rw [h2]
    decide
  · exact (h.2 ⟨"vid1", "Zed", "https://x.com/s.mp3"⟩ "other").2 (by decide)

-- ---------------------------------------------------------------
-- C1: cache hit on the cloning stage
-- ---------------------------------------------------------------

/-- C1: once the cache holds a (non-empty) `voiceId` for a video,
`POST /clone-voice` returns it with the cache-hit message and never
calls the cloning collaborator, and `POST /instant-context` never
calls the cloning collaborator and, when it succeeds, returns that
cached `voiceId`. -/
theorem clone_stage_cache_hit_skips_collaborator (env : Env) (w : World)
    (vId v : String) (hv : cacheGetVoiceId w.cache vId = some v) (hne : v ≠ "") :
    (∀ b : CloneBody, b.videoId = vId → cloneVoiceSchema env b = true →
      (cloneVoiceH env b w).res =
        .ok ⟨vId, v, "Voice already cloned for this video (from cache)."⟩ ∧
      cloneCalls (cloneVoiceH env b w).trace = 0) ∧
    (∀ b : InstantBody, env.extractVideoId b.videoUrl = some vId →
      cloneCalls (instantContext env b w).trace = 0 ∧
      ∀ r, (instantContext env b w).res = .ok r → r.voiceId = v) := by
  have hv' : ((findEntry w.cache vId).bind fun e => e.voiceId) = some v := hv
  have htr : optTruthy ((findEntry w.cache vId).bind fun e => e.voiceId) = true := by
    rw [hv']
    simp [optTruthy, hne]
  constructor
  · intro b hbid hschema
    subst hbid
    unfold cloneVoiceH
    dsimp only
    rw [if_pos hschema]
    rw [show ((cacheGetVideoData w.cache b.videoId).bind fun e => e.voiceId) = some v
      from hv']
    rw [if_pos (show optTruthy (some v) = true by simp [optTruthy, hne])]
    exact ⟨rfl, rfl⟩
  · intro b hx
    unfold instantContext
    dsimp only
    rw [hx]
    dsimp only
    cases hd : env.downloadAudioSegment b.videoUrl b.pausedTime with
    | error e =>
      dsimp only
      exact ⟨rfl, fun r hr => nomatch hr⟩
    | ok audioPath =>
      dsimp only
      cases ht : env.transcribeAudio audioPath with
      | error e =>
        dsimp only
        exact ⟨rfl, fun r hr => nomatch hr⟩
      | ok segs =>
        dsimp only
        rw [show cacheGetVoiceId w.cache vId = some v from hv]
        rw [if_pos (show optTruthy (some v) = true by simp [optTruthy, hne])]
        refine ⟨rfl, fun r hr => ?_⟩
        have hrr := HttpResult.ok.inj hr
        rw [← hrr]
        rfl

/-- Witness for C1 at a concrete world whose cache already holds
`voice-1` for `vid1`. -/
theorem clone_stage_cache_hit_skips_collaborator_witness :
    (cloneVoiceH envT ⟨"vid1", "Zed", "https://x.com/s.mp3"⟩ cachedWorld).res =
      .ok ⟨"vid1", "voice-1", "Voice already cloned for this video (from cache)."⟩ ∧
    cloneCalls (cloneVoiceH envT ⟨"vid1", "Zed", "https://x.com/s.mp3"⟩ cachedWorld).trace = 0 ∧
    cloneCalls (instantContext envT ⟨"https://youtu.be/vid1", 10, "Zed"⟩ cachedWorld).trace = 0 := by
  have h := clone_stage_cache_hit_skips_collaborator envT cachedWorld "vid1" "voice-1"
    (by decide) (by decide)
  exact ⟨(h.1 ⟨"vid1", "Zed", "https://x.com/s.mp3"⟩ rfl (by decide)).1,
    (h.1 ⟨"vid1", "Zed", "https://x.com/s.mp3"⟩ rfl (by decide)).2,
    (h.2 ⟨"https://youtu.be/vid1", 10, "Zed"⟩ (by decide)).1⟩

-- ---------------------------------------------------------------
-- C8: /get-context-window before and after the pipeline
-- ---------------------------------------------------------------

/-- C8: for a video with no session record (no transcript yet known),
`POST /get-context-window` returns the 404 transcript-not-found
error; once the durable pipeline has stored a transcript for that
video, the same call succeeds with the extracted window. -/
theorem get_context_window_not_found_then_ok (env : Env) (w : World) (b : GcwBody)
    (hschema : getContextWindowSchema b = true)
    (hnone : sessGet w.session b.videoId = none)
    (ts : List TranscriptSegment) :
    (getContextWindowH env b w).res = .err 404 "Video transcript not found" ∧
    (getContextWindowH env b
        { w with session := sessSetTranscript w.session b.videoId ts }).res =
      .ok ⟨getContextWindow ts b.pausedTime env.maxContextWindowSeconds⟩ := by
  constructor
  · unfold getContextWindowH
    dsimp only
    rw [if_pos hschema]
    rw [show sessGetCachedContextWindow w.session b.videoId b.pausedTime = none by
      simp [sessGetCachedContextWindow, hnone]]
    rw [show sessGetTranscript w.session b.videoId = none by
      simp [sessGetTranscript, hnone]]
    simp [optTruthy]
  · unfold getContextWindowH
    dsimp only
    rw [if_pos hschema]
    have hget := sessGet_setTranscript_fresh w.session b.videoId ts hnone
    rw [show sessGetCachedContextWindow
          (sessSetTranscript w.session b.videoId ts) b.videoId b.pausedTime = none by
      simp [sessGetCachedContextWindow, hget, SessionState.empty,
        sessGetCachedContextWindow.lookupT]]
    rw [show sessGetTranscript (sessSetTranscript w.session b.videoId ts) b.videoId
          = some ts by simp [sessGetTranscript, hget]]
    simp [optTruthy]

/-- Witness for C8: concrete video, paused time and transcript. -/
theorem get_context_window_not_found_then_ok_witness :
    (getContextWindowH envT ⟨"vid1", 7⟩ emptyWorld).res =
      .err 404 "Video transcript not found" ∧
    (getContextWindowH envT ⟨"vid1", 7⟩
        { emptyWorld with
            session := sessSetTranscript emptyWorld.session "vid1" [⟨0, 5, "hello"⟩] }).res =
      .ok ⟨"hello"⟩ := by
  have h := get_context_window_not_found_then_ok envT emptyWorld ⟨"vid1", 7⟩
    (by decide) (by decide) [⟨0, 5, "hello"⟩]
  refine ⟨h.1, ?_⟩
  rw [h.2]
  decide

-- ---------------------------------------------------------------
-- C10: /create-agent uses the middle-segment window
-- ---------------------------------------------------------------

/-- C10: when `POST /create-agent` actually creates a new agent, the
context window handed to the agent-creation collaborator is extracted
around the start timestamp of the transcript's middle segment (index
`length / 2`) with bound `MAX_CONTEXT_WINDOW_SECONDS`; the request
carries no playback position at all. -/
theorem create_agent_uses_middle_segment (env : Env) (w : World)
    (b : CreateAgentBody) (hb1 : b.videoId ≠ "") (hb2 : b.speakerName ≠ "")
    (s : SessionState) (hs : sessGet w.session b.videoId = some s)
    (tr : List TranscriptSegment) (htr : s.transcript = some tr) (htrne : tr ≠ [])
    (hagent : s.agentId = none) (vid : String) (hvoice : s.voiceId = some vid)
    (hvid : vid ≠ "") (cw : String)
    (hcw : cw = getContextWindow tr ((tr.getD (tr.length / 2) dfltSegment).start)
      env.maxContextWindowSeconds)
    (hcwne : cw ≠ "") (a : String)
    (ha : env.createAgentFn b.speakerName vid cw = .ok a) :
    (createAgentH env b w).res = .ok ⟨a⟩ ∧
    sessGetAgentId ((createAgentH env b w).world).session b.videoId = some a := by
  have hlen : ¬ tr.length = 0 := fun h => htrne (List.length_eq_zero.mp h)
  have hcond : ¬ (b.videoId = "" ∨ b.speakerName = "") := by
    intro h
    rcases h with h | h
    · exact hb1 h
    · exact hb2 h
  have hgetagent : sessGetAgentId w.session b.videoId = none := by
    simp [sessGetAgentId, hs, hagent]
  have hgetvoice : sessGetVoiceId w.session b.videoId = some vid := by
    simp [sessGetVoiceId, hs, hvoice]
  have hgcw : getContextWindowForVideo env w.session b.videoId = some cw := by
    unfold getContextWindowForVideo
    rw [show sessGetTranscript w.session b.videoId = some tr by
      simp [sessGetTranscript, hs, htr]]
    dsimp only
    rw [if_neg hlen, hcw]
  unfold createAgentH
  dsimp only
  rw [if_neg hcond, hs]
  dsimp only
  rw [htr]
  dsimp only
  rw [if_neg hlen, hgetagent]
  rw [if_neg (show ¬ optTruthy none = true by simp [optTruthy])]
  rw [hgetvoice]
  rw [if_pos (show optTruthy (some vid) = true by simp [optTruthy, hvid])]
  rw [hgcw]
  dsimp only
  rw [if_neg (show ¬ cw = "" from hcwne)]
  rw [show (some vid).getD "" = vid from rfl, ha]
  dsimp only
  exact ⟨rfl, sessAgentId_setAgentId w.session b.videoId a⟩

/-- Witness for C10: a two-segment transcript whose middle segment
(index 1) starts at 5; the window around 5 with bound 60 is
`"hello"`. -/
theorem create_agent_uses_middle_segment_witness :
    (createAgentH envT ⟨"vid1", "Alice"⟩ agentReadyWorld).res = .ok ⟨"agent-7"⟩ ∧
    sessGetAgentId
      ((createAgentH envT ⟨"vid1", "Alice"⟩ agentReadyWorld).world).session "vid1" =
      some "agent-7" := by
  exact create_agent_uses_middle_segment envT agentReadyWorld ⟨"vid1", "Alice"⟩
    (by decide) (by decide)
    { SessionState.empty with
        transcript := some [⟨0, 5, "hello"⟩, ⟨5, 9, "world"⟩],
        voiceId := some "voice-1" }
    (by decide) [⟨0, 5, "hello"⟩, ⟨5, 9, "world"⟩] (by decide) (by decide) (by decide)
    "voice-1" (by decide) (by decide) "hello" (by decide) (by decide) "agent-7" rfl

-- ---------------------------------------------------------------
-- C9: which endpoints validate against a schema
-- ---------------------------------------------------------------

theorem cloneVoiceH_trace_head (env : Env) (b : CloneBody) (w : World) :
    (cloneVoiceH env b w).trace.head? = some Ev.validate := by
  unfold cloneVoiceH
  dsimp only
  split
  · split
    · rfl
    · split
      · split <;> rfl
      · rfl
  · rfl

theorem getContextWindowH_trace_head (env : Env) (b : GcwBody) (w : World) :
    (getContextWindowH env b w).trace.head? = some Ev.validate := by
  unfold getContextWindowH
  dsimp only
  split
  · split
    · rfl
    · split <;> rfl
  · rfl

theorem buildConversation_trace_head (env : Env) (b : BuildBody) (w : World) :
    (buildConversation env b w).trace.head? = some Ev.validate := by
  unfold buildConversation
  dsimp only
  split
  · split <;> rfl
  · rfl

theorem streamConversation_trace_head (env : Env) (b : StreamBody) (w : World) :
    (streamConversation env b w).trace.head? = some Ev.validate := by
  unfold streamConversation
  dsimp only
  split
  · split
    · rfl
    · split
      · split <;> rfl
      · rfl
  · rfl

theorem speakH_trace_head (env : Env) (b : SpeakBody) (w : World) :
    (speakH env b w).trace.head? = some Ev.validate := by
  unfold speakH
  split
  · split <;> rfl
  · rfl

theorem prepareContext_no_validate (env : Env) (b : PrepareBody) (w : World) :
    Ev.validate ∉ (prepareContext env b w).trace := by
  unfold prepareContext
  split <;> simp

theorem instantContext_no_validate (env : Env) (b : InstantBody) (w : World) :
    Ev.validate ∉ (instantContext env b w).trace := by
  unfold instantContext
  dsimp only
  split
  · simp
  · split
    · simp
    · split
      · simp
      · split
        · simp
        · split
          · simp
          · split <;> simp

theorem createAgentH_no_validate (env : Env) (b : CreateAgentBody) (w : World) :
    Ev.validate ∉ (createAgentH env b w).trace := by
  unfold createAgentH
  dsimp only
  split
  · simp
  · split
    · simp
    · split
      · simp
      · split
        · simp
        · split
          · simp
          · split
            · split
              · simp
              · split
                · simp
                · split <;> simp
            · simp

/-- C9 (amended): only the five endpoints `clone-voice`,
`get-context-window`, `build-conversation`, `stream-conversation` and
`speak` validate the body against their schema as the first step and
reject violations with the 400 validation error before any core
logic; `prepare-context`, `instant-context` and `create-agent` never
perform a schema validation — in particular `prepare-context` runs id
extraction (and possibly enqueues) on the raw body. -/
theorem schema_checked_only_on_five_endpoints (env : Env) (w : World) :
    (∀ b : CloneBody, (cloneVoiceH env b w).trace.head? = some Ev.validate ∧
      (cloneVoiceSchema env b = false →
        (cloneVoiceH env b w).res = .err 400 "Invalid request data" ∧
        (cloneVoiceH env b w).trace = [Ev.validate] ∧
        (cloneVoiceH env b w).world = w)) ∧
    (∀ b : GcwBody, (getContextWindowH env b w).trace.head? = some Ev.validate ∧
      (getContextWindowSchema b = false →
        (getContextWindowH env b w).res = .err 400 "Invalid request data" ∧
        (getContextWindowH env b w).trace = [Ev.validate] ∧
        (getContextWindowH env b w).world = w)) ∧
    (∀ b : BuildBody, (buildConversation env b w).trace.head? = some Ev.validate ∧
      (buildConversationSchema b = false →
        (buildConversation env b w).res = .err 400 "Invalid request data" ∧
        (buildConversation env b w).trace = [Ev.validate] ∧
        (buildConversation env b w).world = w)) ∧
    (∀ b : StreamBody, (streamConversation env b w).trace.head? = some Ev.validate ∧
      (streamConversationSchema b = false →
        (streamConversation env b w).res = .err 400 "Invalid request data" ∧
        (streamConversation env b w).trace = [Ev.validate] ∧
        (streamConversation env b w).world = w)) ∧
    (∀ b : SpeakBody, (speakH env b w).trace.head? = some Ev.validate ∧
      (speakSchema b = false →
        (speakH env b w).res = .err 400 "Invalid request data" ∧
        (speakH env b w).trace = [Ev.validate] ∧
        (speakH env b w).world = w)) ∧
    (∀ b : PrepareBody, Ev.validate ∉ (prepareContext env b w).trace) ∧
    (∀ b : InstantBody, Ev.validate ∉ (instantContext env b w).trace) ∧
    (∀ b : CreateAgentBody, Ev.validate ∉ (createAgentH env b w).trace) := by
  refine ⟨fun b => ⟨cloneVoiceH_trace_head env b w, fun h => ?_⟩,
    fun b => ⟨getContextWindowH_trace_head env b w, fun h => ?_⟩,
    fun b => ⟨buildConversation_trace_head env b w, fun h => ?_⟩,
    fun b => ⟨streamConversation_trace_head env b w, fun h => ?_⟩,
    fun b => ⟨speakH_trace_head env b w, fun h => ?_⟩,
    fun b => prepareContext_no_validate env b w,
    fun b => instantContext_no_validate env b w,
    fun b => createAgentH_no_validate env b w⟩
  · simp [cloneVoiceH, h]
  · simp [getContextWindowH, h]
  · simp [buildConversation, h]
  · simp [streamConversation, h]
  · simp [speakH, h]

/-- Witness for C9's amended theorem: a concrete schema-invalid
clone-voice body (empty speaker name) is rejected with the validation
error and nothing else happens. -/
theorem schema_checked_only_on_five_endpoints_witness :
    (cloneVoiceH envT ⟨"vid1", "", "https://x.com/s.mp3"⟩ emptyWorld).res =
      .err 400 "Invalid request data" ∧
    (cloneVoiceH envT ⟨"vid1", "", "https://x.com/s.mp3"⟩ emptyWorld).trace =
      [Ev.validate] ∧
    (cloneVoiceH envT ⟨"vid1", "", "https://x.com/s.mp3"⟩ emptyWorld).world =
      emptyWorld :=
  ((schema_checked_only_on_five_endpoints envT emptyWorld).1
    ⟨"vid1", "", "https://x.com/s.mp3"⟩).2 (by decide)

/-- C9 (counterexample): `POST /prepare-context` handles a body that
violates its declared schema (`videoUrl` not a URL) without ever
performing a schema validation — id extraction runs on the raw body —
so the claim that every endpoint validates before any core logic is
false. -/
theorem prepare_context_counterexample :
    prepareContextSchema envT ⟨"notaurl", none⟩ = false ∧
    Ev.validate ∉ (prepareContext envT ⟨"notaurl", none⟩ emptyWorld).trace ∧
    Ev.extractId ∈ (prepareContext envT ⟨"notaurl", none⟩ emptyWorld).trace := by
  decide

-- ---------------------------------------------------------------
-- C6: agent creation is memoized
-- ---------------------------------------------------------------

/-- Sequential execution of a list of `/create-agent` requests:
responses, final world, and total agent-creation collaborator calls. -/
def runCreateAgents (env : Env) (bs : List CreateAgentBody) (w : World) :
    List (HttpResult AgentResp) × World × Nat :=
  match bs with
  | [] => ([], w, 0)
  | b :: rest =>
    let o := createAgentH env b w
    let r := runCreateAgents env rest o.world
    (o.res :: r.1, r.2.1, agentCreateCalls o.trace + r.2.2)

/-- Per-call facts about `/create-agent`: at most one collaborator
call; no call means no state change; a call installs a (non-empty)
agent id; a memoized agent short-circuits everything. -/
theorem createAgentH_step (env : Env)
    (hok : ∀ s u c, ∃ a, env.createAgentFn s u c = Except.ok a ∧ a ≠ "")
    (b : CreateAgentBody) (w : World) :
    agentCreateCalls (createAgentH env b w).trace ≤ 1 ∧
    (agentCreateCalls (createAgentH env b w).trace = 0 →
      (createAgentH env b w).world = w) ∧
    (agentCreateCalls (createAgentH env b w).trace = 1 →
      optTruthy (sessGetAgentId (createAgentH env b w).world.session b.videoId) = true) ∧
    (optTruthy (sessGetAgentId w.session b.videoId) = true →
      agentCreateCalls (createAgentH env b w).trace = 0 ∧
      (createAgentH env b w).world = w) := by
  unfold createAgentH
  dsimp only
  split
  · exact ⟨Nat.zero_le 1, fun _ => rfl, fun h => by simp [agentCreateCalls] at h,
      fun _ => ⟨rfl, rfl⟩⟩
  · rename_i hcond
    split
    · exact ⟨Nat.zero_le 1, fun _ => rfl, fun h => by simp [agentCreateCalls] at h,
        fun _ => ⟨rfl, rfl⟩⟩
    · rename_i videoData hsess
      split
      · exact ⟨Nat.zero_le 1, fun _ => rfl, fun h => by simp [agentCreateCalls] at h,
          fun _ => ⟨rfl, rfl⟩⟩
      · rename_i tr htrs
        split
        · exact ⟨Nat.zero_le 1, fun _ => rfl, fun h => by simp [agentCreateCalls] at h,
            fun _ => ⟨rfl, rfl⟩⟩
        · split
          · exact ⟨Nat.zero_le 1, fun _ => rfl, fun h => by simp [agentCreateCalls] at h,
              fun _ => ⟨rfl, rfl⟩⟩
          · rename_i hagfalse
            split
            · split
              · exact ⟨Nat.zero_le 1, fun _ => rfl, fun h => by simp [agentCreateCalls] at h,
                  fun htru => absurd htru hagfalse⟩
              · rename_i cw hcw
                split
                · exact ⟨Nat.zero_le 1, fun _ => rfl,
                    fun h => by simp [agentCreateCalls] at h,
                    fun htru => absurd htru hagfalse⟩
                · rename_i hcwne
                  split
                  · rename_i e herr
                    obtain ⟨a, ha, hane⟩ := hok b.speakerName
                      ((sessGetVoiceId w.session b.videoId).getD "") cw
                    rw [ha] at herr
                    exact absurd herr (by simp)
                  · rename_i a ha
                    refine ⟨Nat.le_refl 1, fun h => by simp [agentCreateCalls] at h,
                      fun _ => ?_, fun htru => absurd htru hagfalse⟩
                    obtain ⟨a2, ha2, hane2⟩ := hok b.speakerName
                      ((sessGetVoiceId w.session b.videoId).getD "") cw
                    rw [ha2] at ha
                    have haa : a2 = a := Except.ok.inj ha
                    subst haa
                    dsimp only
                    rw [sessAgentId_setAgentId]
                    simp [optTruthy, hane2]
            · exact ⟨Nat.zero_le 1, fun _ => rfl, fun h => by simp [agentCreateCalls] at h,
                fun htru => absurd htru hagfalse⟩

/-- Total collaborator calls over a sequence of `/create-agent`
requests for one video: at most one, and zero when an agent is
already memoized. -/
theorem runCreateAgents_calls (env : Env)
    (hok : ∀ s u c, ∃ a, env.createAgentFn s u c = Except.ok a ∧ a ≠ "")
    (v : String) (bs : List CreateAgentBody) (hbs : ∀ b ∈ bs, b.videoId = v)
    (w : World) :
    (runCreateAgents env bs w).2.2 ≤ 1 ∧
    (optTruthy (sessGetAgentId w.session v) = true →
      (runCreateAgents env bs w).2.2 = 0) := by
  induction bs generalizing w with
  | nil => simp [runCreateAgents]
  | cons b rest ih =>
    have hbv : b.videoId = v := hbs b (List.mem_cons_self b rest)
    have hrest : ∀ x ∈ rest, x.videoId = v := fun x hx => hbs x (List.mem_cons_of_mem b hx)
    obtain ⟨hle, h0, h1, hmemo⟩ := createAgentH_step env hok b w
    have htot : (runCreateAgents env (b :: rest) w).2.2 =
        agentCreateCalls (createAgentH env b w).trace +
          (runCreateAgents env rest (createAgentH env b w).world).2.2 := rfl
    rcases Nat.le_one_iff_eq_zero_or_eq_one.mp hle with hz | ho
    · have hw : (createAgentH env b w).world = w := h0 hz
      constructor
      · rw [htot, hz, hw]
        simpa using (ih hrest w).1
      · intro htru
        rw [htot, hz, hw]
        simpa using (ih hrest w).2 htru
    · constructor
      · rw [htot, ho]
        have htru : optTruthy
            (sessGetAgentId (createAgentH env b w).world.session v) = true := by
          rw [← hbv]
          exact h1 ho
        have := (ih hrest (createAgentH env b w).world).2 htru
        omega
      · intro htru
        rw [← hbv] at htru
        exact absurd ho (by rw [(hmemo htru).1]; decide)

/-- C6: the agent-creation collaborator is invoked at most once per
video across any sequence of `/create-agent` calls, and once an
agent id is memoized in the session store a call with the
prerequisites in place returns it with zero collaborator calls and no
state change. -/
theorem create_agent_collaborator_at_most_once (env : Env)
    (hok : ∀ s u c, ∃ a, env.createAgentFn s u c = Except.ok a ∧ a ≠ "")
    (v : String) (bs : List CreateAgentBody) (hbs : ∀ b ∈ bs, b.videoId = v)
    (w : World) :
    (runCreateAgents env bs w).2.2 ≤ 1 ∧
    (∀ (b : CreateAgentBody) (s : SessionState) (a : String),
      b.videoId = v → b.speakerName ≠ "" → v ≠ "" →
      sessGet w.session v = some s →
      (∃ tr, s.transcript = some tr ∧ tr ≠ []) →
      s.agentId = some a → a ≠ "" →
      (createAgentH env b w).res = .ok ⟨a⟩ ∧
      agentCreateCalls (createAgentH env b w).trace = 0 ∧
      (createAgentH env b w).world = w) := by
  refine ⟨(runCreateAgents_calls env hok v bs hbs w).1, ?_⟩
  rintro b s a hbv hsp hvne hs ⟨tr, htr, htrne⟩ hag hane
  subst hbv
  have hlen : ¬ tr.length = 0 := fun h => htrne (List.length_eq_zero.mp h)
  have hcond : ¬ (b.videoId = "" ∨ b.speakerName = "") := by
    intro h
    rcases h with h | h
    · exact hvne h
    · exact hsp h
  have hgetagent : sessGetAgentId w.session b.videoId = some a := by
    simp [sessGetAgentId, hs, hag]
  unfold createAgentH
  dsimp only
  rw [if_neg hcond, hs]
  dsimp only
  rw [htr]
  dsimp only
  rw [if_neg hlen, hgetagent]
  rw [if_pos (show optTruthy (some a) = true by simp [optTruthy, hane])]
  exact ⟨rfl, rfl, rfl⟩

/-- Witness for C6: two sequential `/create-agent` calls for `vid1`
make exactly one collaborator call in total, and a call against a
world with a memoized agent returns it unchanged. -/
theorem create_agent_collaborator_at_most_once_witness :
    (runCreateAgents envT [⟨"vid1", "Alice"⟩, ⟨"vid1", "Bob"⟩] agentReadyWorld).2.2 ≤ 1 ∧
    (createAgentH envT ⟨"vid1", "Alice"⟩ memoAgentWorld).res = .ok ⟨"agent-7"⟩ ∧
    agentCreateCalls (createAgentH envT ⟨"vid1", "Alice"⟩ memoAgentWorld).trace = 0 ∧
    (createAgentH envT ⟨"vid1", "Alice"⟩ memoAgentWorld).world = memoAgentWorld := by
  have hok : ∀ s u c, ∃ a, envT.createAgentFn s u c = Except.ok a ∧ a ≠ "" :=
    fun s u c => ⟨"agent-7", rfl, by decide⟩
  refine ⟨(create_agent_collaborator_at_most_once envT hok "vid1"
      [⟨"vid1", "Alice"⟩, ⟨"vid1", "Bob"⟩] ?_ agentReadyWorld).1, ?_⟩
  · intro b hb
    fin_cases hb <;> rfl
  · exact (create_agent_collaborator_at_most_once envT hok "vid1" [] (by simp)
      memoAgentWorld).2 ⟨"vid1", "Alice"⟩ memoAgentState
      "agent-7" rfl (by decide) (by decide) (by decide)
      ⟨[⟨0, 5, "hello"⟩], by decide, by decide⟩ (by decide) (by decide)

-- ---------------------------------------------------------------
-- C2: quota enforcement over conversational turns
-- ---------------------------------------------------------------

/-- A conversational-turn request: `/build-conversation` or
`/stream-conversation`. -/
inductive Turn where
  | build (b : BuildBody)
  | stream (b : StreamBody)
  deriving Repr, DecidableEq

/-- A turn for video `v` with a schema-valid body. -/
def validTurn (v : String) (t : Turn) : Bool :=
  match t with
  | .build b => decide (b.videoId = v) && buildConversationSchema b
  | .stream b => decide (b.videoId = v) && streamConversationSchema b

/-- Run one turn: the pre-increment counter value it observes, the
HTTP status it produces, and the resulting world. -/
def runTurn (env : Env) (t : Turn) (w : World) : (Nat × Nat) × World :=
  match t with
  | .build b =>
    ((sessGetQuestionCount w.session b.videoId,
      (buildConversation env b w).res.statusOf), (buildConversation env b w).world)
  | .stream b =>
    ((sessGetQuestionCount w.session b.videoId,
      (streamConversation env b w).res.statusOf), (streamConversation env b w).world)

/-- Run a sequence of turns, collecting (pre-counter, status) pairs. -/
def runTurns (env : Env) (ts : List Turn) (w : World) :
    List (Nat × Nat) × World :=
  match ts with
  | [] => ([], w)
  | t :: rest =>
    let p := runTurn env t w
    let r := runTurns env rest p.2
    (p.1 :: r.1, r.2)

theorem buildConversation_accept (env : Env) (b : BuildBody) (w : World)
    (hschema : buildConversationSchema b = true)
    (hlt : sessGetQuestionCount w.session b.videoId < env.maxQuestions) :
    (buildConversation env b w).res.statusOf = 200 ∧
    (buildConversation env b w).world =
      { w with session := sessIncrementQuestionCount w.session b.videoId } := by
  unfold buildConversation
  dsimp only
  rw [if_pos hschema, if_neg (Nat.not_le.mpr hlt)]
  exact ⟨rfl, rfl⟩

theorem buildConversation_reject (env : Env) (b : BuildBody) (w : World)
    (hschema : buildConversationSchema b = true)
    (hge : env.maxQuestions ≤ sessGetQuestionCount w.session b.videoId) :
    (buildConversation env b w).res.statusOf = 429 ∧
    (buildConversation env b w).world = w := by
  unfold buildConversation
  dsimp only
  rw [if_pos hschema, if_pos hge]
  exact ⟨rfl, rfl⟩

theorem streamConversation_accept (env : Env) (b : StreamBody) (w : World)
    (hschema : streamConversationSchema b = true)
    (hlt : sessGetQuestionCount w.session b.videoId < env.maxQuestions)
    (a : String) (ha : sessGetAgentId w.session b.videoId = some a)
    (hane : a ≠ "")
    (hstream : ∀ u s, ∃ r, env.streamConversationFn u s = Except.ok r) :
    (streamConversation env b w).res.statusOf = 200 ∧
    (streamConversation env b w).world =
      { w with session := sessIncrementQuestionCount w.session b.videoId } := by
  unfold streamConversation
  dsimp only
  rw [if_pos hschema, if_neg (Nat.not_le.mpr hlt)]
  rw [show sessGetAgentId (sessIncrementQuestionCount w.session b.videoId) b.videoId
      = some a by rw [sessAgentId_increment]; exact ha]
  rw [if_pos (show optTruthy (some a) = true by simp [optTruthy, hane])]
  obtain ⟨r, hr⟩ := hstream ((some a : Option String).getD "") b.text
  rw [hr]
  exact ⟨rfl, rfl⟩

theorem streamConversation_reject (env : Env) (b : StreamBody) (w : World)
    (hschema : streamConversationSchema b = true)
    (hge : env.maxQuestions ≤ sessGetQuestionCount w.session b.videoId) :
    (streamConversation env b w).res.statusOf = 429 ∧
    (streamConversation env b w).world = w := by
  unfold streamConversation
  dsimp only
  rw [if_pos hschema, if_pos hge]
  exact ⟨rfl, rfl⟩

/-- One valid turn: observes the current counter, succeeds (with an
increment) below the quota, is rejected with 429 (state unchanged) at
or above it. -/
theorem runTurn_step (env : Env)
    (hstream : ∀ u s, ∃ r, env.streamConversationFn u s = Except.ok r)
    (v a : String) (hane : a ≠ "") (t : Turn) (hvt : validTurn v t = true)
    (w : World) (ha : sessGetAgentId w.session v = some a) :
    (runTurn env t w).1.1 = sessGetQuestionCount w.session v ∧
    (if sessGetQuestionCount w.session v < env.maxQuestions then
      (runTurn env t w).1.2 = 200 ∧
      (runTurn env t w).2.session = sessIncrementQuestionCount w.session v
     else (runTurn env t w).1.2 = 429 ∧ (runTurn env t w).2 = w) := by
  cases t with
  | build b =>
    simp only [validTurn, Bool.and_eq_true, decide_eq_true_eq] at hvt
    obtain ⟨hbv, hsch⟩ := hvt
    subst hbv
    refine ⟨rfl, ?_⟩
    by_cases hq : sessGetQuestionCount w.session b.videoId < env.maxQuestions
    · rw [if_pos hq]
      obtain ⟨h200, hw⟩ := buildConversation_accept env b w hsch hq
      exact ⟨h200, by rw [show (runTurn env (Turn.build b) w).2
        = (buildConversation env b w).world from rfl, hw]⟩
    · rw [if_neg hq]
      exact buildConversation_reject env b w hsch (Nat.not_lt.mp hq)
  | stream b =>
    simp only [validTurn, Bool.and_eq_true, decide_eq_true_eq] at hvt
    obtain ⟨hbv, hsch⟩ := hvt
    subst hbv
    refine ⟨rfl, ?_⟩
    by_cases hq : sessGetQuestionCount w.session b.videoId < env.maxQuestions
    · rw [if_pos hq]
      obtain ⟨h200, hw⟩ := streamConversation_accept env b w hsch hq a ha hane hstream
      exact ⟨h200, by rw [show (runTurn env (Turn.stream b) w).2
        = (streamConversation env b w).world from rfl, hw]⟩
    · rw [if_neg hq]
      exact streamConversation_reject env b w hsch (Nat.not_lt.mp hq)

/-- Generalized quota invariant: starting from counter `c`, turn `i`
observes pre-increment value `c + min i (MAX - c)` and is accepted
(200, one increment) exactly when `c + i < MAX`, rejected with 429
otherwise; the final counter is `c + min len (MAX - c)`. -/
theorem runTurns_spec (env : Env)
    (hstream : ∀ u s, ∃ r, env.streamConversationFn u s = Except.ok r)
    (v a : String) (hane : a ≠ "") (ts : List Turn)
    (hts : ∀ t ∈ ts, validTurn v t = true) (w : World)
    (ha : sessGetAgentId w.session v = some a) :
    (∀ i, i < ts.length →
      ((runTurns env ts w).1.getD i (0, 0)).1 =
        sessGetQuestionCount w.session v +
          min i (env.maxQuestions - sessGetQuestionCount w.session v) ∧
      ((runTurns env ts w).1.getD i (0, 0)).2 =
        (if sessGetQuestionCount w.session v + i < env.maxQuestions
         then 200 else 429)) ∧
    sessGetQuestionCount ((runTurns env ts w).2).session v =
      sessGetQuestionCount w.session v +
        min ts.length (env.maxQuestions - sessGetQuestionCount w.session v) := by
  induction ts generalizing w with
  | nil =>
    refine ⟨fun i hi => absurd hi (Nat.not_lt_zero i), ?_⟩
    simp [runTurns]
  | cons t rest ih =>
    have hvt := hts t (List.mem_cons_self t rest)
    have hrest : ∀ x ∈ rest, validTurn v x = true :=
      fun x hx => hts x (List.mem_cons_of_mem t hx)
    have hstep := runTurn_step env hstream v a hane t hvt w ha
    have hpre := hstep.1
    have hhead : (runTurns env (t :: rest) w).1.getD 0 (0, 0) = (runTurn env t w).1 := rfl
    have htail : ∀ i, (runTurns env (t :: rest) w).1.getD (i + 1) (0, 0) =
        (runTurns env rest (runTurn env t w).2).1.getD i (0, 0) := fun i => rfl
    have hw2 : (runTurns env (t :: rest) w).2 = (runTurns env rest (runTurn env t w).2).2 := rfl
    by_cases hq : sessGetQuestionCount w.session v < env.maxQuestions
    · rw [if_pos hq] at hstep
      obtain ⟨h200, hsess⟩ := hstep.2
      have hcount2 : sessGetQuestionCount (runTurn env t w).2.session v =
          sessGetQuestionCount w.session v + 1 := by
        rw [hsess, sessCount_increment_self]
      have ha2 : sessGetAgentId (runTurn env t w).2.session v = some a := by
        rw [hsess, sessAgentId_increment]
        exact ha
      obtain ⟨ihidx, ihcount⟩ := ih hrest (runTurn env t w).2 ha2
      rw [hcount2] at ihidx ihcount
      constructor
      · intro i hi
        cases i with
        | zero =>
          rw [hhead]
          refine ⟨?_, ?_⟩
          · rw [hpre]
            omega
          · rw [h200, if_pos (by omega)]
        | succ i =>
          have hi2 : i < rest.length := by
            simpa using Nat.lt_of_succ_lt_succ hi
          obtain ⟨hA, hB⟩ := ihidx i hi2
          refine ⟨?_, ?_⟩
          · rw [htail i, hA]
            omega
          · rw [htail i, hB]
            by_cases hx : sessGetQuestionCount w.session v + (i + 1) < env.maxQuestions
            · rw [if_pos (by omega), if_pos hx]
            · rw [if_neg (by omega), if_neg hx]
      · rw [hw2, ihcount]
        simp only [List.length_cons]
        omega
    · rw [if_neg hq] at hstep
      obtain ⟨h429, hwid⟩ := hstep.2
      obtain ⟨ihidx, ihcount⟩ := ih hrest (runTurn env t w).2 (by rw [hwid]; exact ha)
      rw [show (runTurn env t w).2.session = w.session by rw [hwid]] at ihidx ihcount
      constructor
      · intro i hi
        cases i with
        | zero =>
          rw [hhead]
          refine ⟨?_, ?_⟩
          · rw [hpre]
            omega
          · rw [h429, if_neg (by omega)]
        | succ i =>
          have hi2 : i < rest.length := by
            simpa using Nat.lt_of_succ_lt_succ hi
          obtain ⟨hA, hB⟩ := ihidx i hi2
          refine ⟨?_, ?_⟩
          · rw [htail i, hA]
            omega
          · rw [htail i, hB]
            by_cases hx : sessGetQuestionCount w.session v + (i + 1) < env.maxQuestions
            · rw [if_pos (by omega), if_pos hx]
            · rw [if_neg (by omega), if_neg hx]
      · rw [hw2, ihcount]
        simp only [List.length_cons]
        omega

/-- C2: starting from a fresh (zero) counter, for any interleaving of
valid `/build-conversation` and `/stream-conversation` turns on one
video, turn `i` observes the pre-increment counter value `min i MAX`
— so the accepted turns observe the distinct values `0, …, MAX−1` and
no two turns pass the check on the same pre-increment value — and is
accepted with 200 exactly when `i < MAX` and rejected with the 429
quota error otherwise; the final counter is `min (number of turns)
MAX`, i.e. each accepted turn incremented it exactly once. -/
theorem quota_exactly_max_turns_accepted (env : Env)
    (hstream : ∀ u s, ∃ r, env.streamConversationFn u s = Except.ok r)
    (v a : String) (hane : a ≠ "") (ts : List Turn)
    (hts : ∀ t ∈ ts, validTurn v t = true) (w : World)
    (ha : sessGetAgentId w.session v = some a)
    (hc0 : sessGetQuestionCount w.session v = 0) :
    (∀ i, i < ts.length →
      ((runTurns env ts w).1.getD i (0, 0)).1 = min i env.maxQuestions ∧
      ((runTurns env ts w).1.getD i (0, 0)).2 =
        (if i < env.maxQuestions then 200 else 429)) ∧
    sessGetQuestionCount ((runTurns env ts w).2).session v =
      min ts.length env.maxQuestions := by
  obtain ⟨hidx, hcount⟩ := runTurns_spec env hstream v a hane ts hts w ha
  rw [hc0] at hidx hcount
  constructor
  · intro i hi
    obtain ⟨h1, h2⟩ := hidx i hi
    refine ⟨?_, ?_⟩
    · rw [h1]
      omega
    · rw [h2, Nat.zero_add]
  · rw [hcount]
    omega

/-- Three valid turns for `vid1`: build, stream, build. -/
def turnsW : List Turn :=
  [.build ⟨"vid1", "voice-1", "Alice", "ctx", "question"⟩,
   .stream ⟨"vid1", "hello"⟩,
   .build ⟨"vid1", "voice-1", "Alice", "ctx", "question"⟩]

/-- A world with an agent for `vid1` and a zero question counter. -/
def quotaWorld : World :=
  { cache := [], jobs := [],
    session := [("vid1", { SessionState.empty with agentId := some "agent-7" })] }

/-- Witness for C2 with `MAX_QUESTIONS_PER_VIDEO = 2` and three
turns: the first two succeed, the third is rejected with 429, and the
final counter is 2. -/
theorem quota_exactly_max_turns_accepted_witness :
    ((runTurns envT turnsW quotaWorld).1.getD 0 (0, 0)).2 = 200 ∧
    ((runTurns envT turnsW quotaWorld).1.getD 1 (0, 0)).2 = 200 ∧
    ((runTurns envT turnsW quotaWorld).1.getD 2 (0, 0)).2 = 429 ∧
    sessGetQuestionCount ((runTurns envT turnsW quotaWorld).2).session "vid1" = 2 := by
  have hstream : ∀ u s, ∃ r, envT.streamConversationFn u s = Except.ok r :=
    fun u s => ⟨u ++ ":" ++ s, rfl⟩
  have h := quota_exactly_max_turns_accepted envT hstream "vid1" "agent-7"
    (by decide) turnsW (by decide) quotaWorld (by decide) (by decide)
  refine ⟨?_, ?_, ?_, ?_⟩
  · rw [(h.1 0 (by decide)).2]
    decide
  · rw [(h.1 1 (by decide)).2]
    decide
  · rw [(h.1 2 (by decide)).2]
    decide
  · rw [h.2]
    decide

end VoxTube
